import Mathlib

/-!
# Verification of the speaking-style profiling engine (`src/server/services/learning.js`)

Shallow embedding of the profiling engine:

* JS strings are modelled as `List Char`, one element per UTF-16 code unit
  (all fixed vocabulary entries are BMP characters, where code unit = code point);
  `text.length` is `List.length`.
* JS numbers (`averageLength`, `politenessScore`) are modelled as exact
  rationals `ℚ`; the incremental formulas are the source's formulas verbatim.
* JS objects used as counters are modelled as insertion-ordered association
  lists: an existing key is bumped in place, a new key is appended at the end,
  which matches the enumeration order of string keys in JS objects as used by
  `Object.entries`.
* `Array.prototype.sort` with the comparator `(a, b) => b[1] - a[1]` is a
  stable sort by count descending; it is modelled by `List.insertionSort`
  (stable, and extensionally equal to every stable sort for this total
  transitive comparator).
* `new Date().toISOString()` is modelled by an opaque `now : String` input.
* The per-relationship file store is modelled as `Option StyleProfile`
  (`none` = no document yet), with JSON (de)serialisation treated as the
  identity round-trip for `rebuild`/`update`; the unvalidated JSON load path
  is modelled separately by `Json`/`loadProfileJson`.
-/

namespace Learning

/-- A JS string, one element per UTF-16 code unit. -/
abbrev Str := List Char

/-- A JS object used as a counter: insertion-ordered association list. -/
abbrev CountMap := List (Str × Nat)

/-- JS `text.includes(pat)`: substring containment test. -/
def strIncludes (text pat : Str) : Bool :=
  match text with
  | [] => pat.isEmpty
  | _ :: rest => pat.isPrefixOf text || strIncludes rest pat

/-- The character class `[\s、。！？!?,.\n\r]` used both by the splitter in
`tokenize` and by the skip-test of the phrase miner (`\s` is the JS regex
whitespace class). -/
def isSep (c : Char) : Bool :=
  -- the JS regex whitespace class: space, \t \n \v \f \r, NBSP, U+1680,
  -- U+2000-U+200A, U+2028, U+2029, U+202F, U+205F, U+3000, BOM U+FEFF
  c.toNat = 0x20 || c.toNat = 0x09 || c.toNat = 0x0a || c.toNat = 0x0b ||
  c.toNat = 0x0c || c.toNat = 0x0d || c.toNat = 0xa0 || c.toNat = 0x1680 ||
  (0x2000 ≤ c.toNat && c.toNat ≤ 0x200a) ||
  c.toNat = 0x2028 || c.toNat = 0x2029 || c.toNat = 0x202f ||
  c.toNat = 0x205f || c.toNat = 0x3000 || c.toNat = 0xfeff ||
  -- the explicit punctuation of the class (\n \r repeat the class above)
  c = '、' || c = '。' || c = '！' || c = '？' ||
  c = '!' || c = '?' || c = ',' || c = '.' 
/-- Helper for `tokenize`: split into maximal runs of non-separator
characters, dropping empty segments (`.filter(Boolean)`); `acc` is the
current segment, reversed. -/
def splitSepsAux : Str → Str → List Str
  | [], acc => if acc.isEmpty then [] else [acc.reverse]
  | c :: cs, acc =>
    if isSep c then
      if acc.isEmpty then splitSepsAux cs [] else acc.reverse :: splitSepsAux cs []
    else splitSepsAux cs (c :: acc)

/-- Source `tokenize`: `text.split(/[\s、。！？!?,.\n\r]+/).filter(Boolean)`.
The function returns the rough segments (`return rough`); the n-gram loop in
the source body only fills a local variable that is never returned. -/
def tokenize (text : Str) : List Str :=
  splitSepsAux text []

/-- Source idiom `obj[k] = (obj[k] || 0) + 1` on an insertion-ordered object: bump an
existing key in place, append a new key at the end. -/
def bump : CountMap → Str → CountMap
  | [], k => [(k, 1)]
  | e :: rest, k => if e.1 = k then (e.1, e.2 + 1) :: rest else e :: bump rest k

/-- The fixed sentence-ender vocabulary `JAPANESE_SENTENCE_ENDERS`. -/
def JAPANESE_SENTENCE_ENDERS : List Str :=
  ["だよね", "だよな", "じゃん", "じゃね", "かな", "かも",
   "だね", "だな", "よね", "よな", "わね", "のよ", "のね",
   "ですね", "ですよ", "ますね", "ますよ", "でしょ", "でしょう",
   "だろう", "だろ", "っす", "っすね", "っすよ",
   "やん", "やんな", "やんね", "やで", "やねん",
   "だぜ", "だぞ", "ぜ", "ぞ", "さ", "な", "ね", "よ", "わ"].map String.data

/-- The fixed filler-word vocabulary `FILLER_WORDS`. -/
def FILLER_WORDS : List Str :=
  ["えーと", "えっと", "あのー", "あの", "まあ", "なんか",
   "ちょっと", "やっぱり", "やっぱ", "とりあえず", "一応",
   "ほんと", "マジで", "まじで", "ぶっちゃけ", "っていうか",
   "なんていうか", "そうだな", "うーん", "ええと"].map String.data

/-- The fixed first-person pronoun vocabulary `FIRST_PERSON_PRONOUNS`. -/
def FIRST_PERSON_PRONOUNS : List Str :=
  ["俺", "僕", "私", "わたし", "あたし", "うち", "自分", "わし", "おいら"].map String.data

/-- Source `POLITENESS_MARKERS.formal`. -/
def POLITENESS_FORMAL : List Str :=
  ["です", "ます", "ございます", "いたします", "くださる", "でしょうか"].map String.data

/-- Source `POLITENESS_MARKERS.casual`. -/
def POLITENESS_CASUAL : List Str :=
  ["だよ", "だぜ", "じゃん", "っす", "だろ", "だな", "やん"].map String.data

/-- The order imposed by the JS comparator `(a, b) => b[1] - a[1]`:
count descending (ties are both-related, so a stable sort keeps them in
original order). -/
def countGE (a b : Str × Nat) : Prop := b.2 ≤ a.2

instance : DecidableRel countGE := fun a b => inferInstanceAs (Decidable (b.2 ≤ a.2))

instance : IsTotal (Str × Nat) countGE := ⟨fun a b => Nat.le_total b.2 a.2⟩

instance : IsTrans (Str × Nat) countGE := ⟨fun _ _ _ h1 h2 => Nat.le_trans h2 h1⟩

/-- Source `entries.sort((a, b) => b[1] - a[1])`: the stable sort by count
descending, modelled by insertion sort (stable sorts agree extensionally). -/
def sortByCountDesc (l : CountMap) : CountMap :=
  List.insertionSort countGE l

/-- The word-frequency step: every token of length ≥ 2 bumps its count. -/
def bumpWords (ws : List Str) (m : CountMap) : CountMap :=
  ws.foldl (fun acc w => if 2 ≤ w.length then bump acc w else acc) m

/-- One closed-vocabulary detection pass: each pattern that occurs in the
text (as a substring) is bumped once, in list order. -/
def detect (pats : List Str) (text : Str) (m : CountMap) : CountMap :=
  pats.foldl (fun acc pat => if strIncludes text pat then bump acc pat else acc) m

/-- Source `text.substring(i, i + len)`. -/
def substringAt (text : Str) (i len : Nat) : Str :=
  (text.drop i).take len

/-- The inner mining loop for one window size `len`: bump every contiguous
substring of that length unless it matches `/^[\s、。！？!?,.\n\r]+$/`
(nonempty and made only of separator characters). -/
def minePhrasesLen (text : Str) (len : Nat) (m : CountMap) : CountMap :=
  (List.range (text.length + 1 - len)).foldl
    (fun acc i =>
      let phrase := substringAt text i len
      if (!phrase.isEmpty && phrase.all isSep) then acc else bump acc phrase) m

/-- The phrase-mining step: window sizes 3 through `min 8 text.length`. -/
def minePhrases (text : Str) (m : CountMap) : CountMap :=
  (List.range' 3 (min 8 text.length + 1 - 3)).foldl
    (fun acc len => minePhrasesLen text len acc) m

/-- The pruning step: if more than 5000 distinct phrases, keep the top 2000
by count descending (stable, so ties keep insertion order). -/
def prunePhrases (m : CountMap) : CountMap :=
  if 5000 < m.length then (sortByCountDesc m).take 2000 else m

/-- The persisted style profile document (`createEmptyProfile` lists its
fields; `topicKeywords` and `responsePatterns` exist but are never updated). -/
structure StyleProfile where
  totalMessages : Nat
  wordFrequency : CountMap
  sentenceEnders : CountMap
  fillerWords : CountMap
  firstPerson : CountMap
  averageLength : ℚ
  politenessScore : ℚ
  commonPhrases : CountMap
  topicKeywords : CountMap
  responsePatterns : CountMap
  lastUpdated : Option String
  deriving DecidableEq

/-- Source `createEmptyProfile()`. -/
def createEmptyProfile : StyleProfile :=
  { totalMessages := 0
    wordFrequency := []
    sentenceEnders := []
    fillerWords := []
    firstPerson := []
    averageLength := 0
    politenessScore := 0
    commonPhrases := []
    topicKeywords := []
    responsePatterns := []
    lastUpdated := none }

/-- The politeness pass over `POLITENESS_MARKERS.formal`: each marker list
member is tested once by substring containment, so it contributes at most 1
per message. -/
def formalMatches (text : Str) : Nat :=
  POLITENESS_FORMAL.countP (fun m => strIncludes text m)

/-- The politeness pass over `POLITENESS_MARKERS.casual`. -/
def casualMatches (text : Str) : Nat :=
  POLITENESS_CASUAL.countP (fun m => strIncludes text m)

/-- Source `analyzeMessage(text, profile)`, with the timestamp passed in as `now`. -/
def analyzeMessage (text : Str) (now : String) (profile : StyleProfile) : StyleProfile :=
  let newTotal := profile.totalMessages + 1
  let prevTotal : ℚ := profile.averageLength * ((newTotal - 1 : ℕ) : ℚ)
  let formalCount := formalMatches text
  let casualCount := casualMatches text
  let alpha : ℚ := 3 / 10
  { profile with
    totalMessages := newTotal
    averageLength := (prevTotal + (text.length : ℚ)) / (newTotal : ℚ)
    wordFrequency := bumpWords (tokenize text) profile.wordFrequency
    sentenceEnders := detect JAPANESE_SENTENCE_ENDERS text profile.sentenceEnders
    fillerWords := detect FILLER_WORDS text profile.fillerWords
    firstPerson := detect FIRST_PERSON_PRONOUNS text profile.firstPerson
    politenessScore :=
      if 0 < formalCount + casualCount then
        alpha * (((formalCount : ℚ) - (casualCount : ℚ)) / ((formalCount : ℚ) + (casualCount : ℚ)))
          + (1 - alpha) * profile.politenessScore
      else profile.politenessScore
    commonPhrases := prunePhrases (minePhrases text profile.commonPhrases)
    lastUpdated := some now }

/-- The per-relationship store, abstracted to one key: `none` means no
document has been saved yet. -/
abbrev Store := Option StyleProfile

/-- Source `loadProfile`: the stored document, or a fresh empty profile when the
file does not exist (the well-formed-document path; the raw JSON path is
modelled below by `loadProfileJson`). -/
def loadStore (s : Store) : StyleProfile :=
  s.getD createEmptyProfile

/-- Source `updateProfile(text)` acting on the store: load, analyze, save. -/
def updateStore (s : Store) (text : Str) (now : String) : Store :=
  some (analyzeMessage text now (loadStore s))

/-- Source `rebuildProfile()`: replay the full ordered message history onto a fresh
empty profile. -/
def rebuildProfile (msgs : List (Str × String)) : StyleProfile :=
  msgs.foldl (fun p m => analyzeMessage m.1 m.2 p) createEmptyProfile

/-- Source `getTopItems(obj, n)`: sort entries by count descending (stable) and keep
the first `n`. -/
def getTopItems (m : CountMap) (n : Nat) : CountMap :=
  (sortByCountDesc m).take n

/-- The read view produced by `getProfileSummary` (the `relationship` and
`relationshipLabel` fields come from the excluded settings collaborator and
are omitted). -/
structure ProfileSummary where
  totalMessages : Nat
  averageLength : ℤ
  politenessScore : ℚ
  politenessLabel : String
  topWords : CountMap
  topSentenceEnders : CountMap
  topFillerWords : CountMap
  firstPersonUsage : CountMap
  topPhrases : CountMap
  lastUpdated : Option String
  deriving DecidableEq

/-- Source `getProfileSummary()` applied to a loaded profile (`Math.round` rounds
half toward +∞, as does `round` on `ℚ`). -/
def getProfileSummary (profile : StyleProfile) : ProfileSummary :=
  { totalMessages := profile.totalMessages
    averageLength := round profile.averageLength
    politenessScore := profile.politenessScore
    politenessLabel :=
      if (3 / 10 : ℚ) < profile.politenessScore then "丁寧"
      else if profile.politenessScore < -(3 / 10 : ℚ) then "カジュアル"
      else "普通"
    topWords := getTopItems profile.wordFrequency 15
    topSentenceEnders := getTopItems profile.sentenceEnders 10
    topFillerWords := getTopItems profile.fillerWords 10
    firstPersonUsage := getTopItems profile.firstPerson 5
    topPhrases :=
      (getTopItems profile.commonPhrases 15).filter
        (fun p => decide (2 ≤ p.2) && decide (3 ≤ p.1.length))
    lastUpdated := profile.lastUpdated }

/-! ## The raw JSON load path

`loadProfile` reads the file and returns `JSON.parse(contents)` without any
validation.  A persisted document is abstracted by its `JSON.parse` outcome:
either a syntax error, or the JSON value the text denotes. -/

/-- A JSON value (numbers as exact rationals). -/
inductive Json where
  | null : Json
  | bool : Bool → Json
  | num : ℚ → Json
  | str : String → Json
  | arr : List Json → Json
  | obj : List (String × Json) → Json

/-- A persisted profile document, abstracted by its `JSON.parse` outcome. -/
inductive PersistedDoc where
  | malformed : PersistedDoc
  | parsed : Json → PersistedDoc

/-- The only failure `loadProfile` can produce: the `SyntaxError` thrown by
`JSON.parse` on malformed text. -/
inductive LoadFailure where
  | syntaxError : LoadFailure
  deriving DecidableEq

/-- JS `JSON.parse` on the abstracted document. -/
def jsonParse : PersistedDoc → Except LoadFailure Json
  | .malformed => .error .syntaxError
  | .parsed j => .ok j

/-- Serialisation of a counter object, as `JSON.stringify` would emit it. -/
def countMapToJson (m : CountMap) : Json :=
  .obj (m.map (fun e => (String.mk e.1, Json.num (e.2 : ℚ))))

/-- Serialisation of a profile, as `JSON.stringify` would emit it. -/
def profileToJson (p : StyleProfile) : Json :=
  .obj
    [("totalMessages", .num (p.totalMessages : ℚ)),
     ("wordFrequency", countMapToJson p.wordFrequency),
     ("sentenceEnders", countMapToJson p.sentenceEnders),
     ("fillerWords", countMapToJson p.fillerWords),
     ("firstPerson", countMapToJson p.firstPerson),
     ("averageLength", .num p.averageLength),
     ("politenessScore", .num p.politenessScore),
     ("commonPhrases", countMapToJson p.commonPhrases),
     ("topicKeywords", countMapToJson p.topicKeywords),
     ("responsePatterns", countMapToJson p.responsePatterns),
     ("lastUpdated", match p.lastUpdated with | none => .null | some s => .str s)]

/-- Source `loadProfile` at the document level: a missing file yields
`createEmptyProfile()`; an existing file yields whatever `JSON.parse`
produces, with no validation of the result. -/
def loadProfileJson (file : Option PersistedDoc) : Except LoadFailure Json :=
  match file with
  | none => .ok (profileToJson createEmptyProfile)
  | some d => jsonParse d

/-- Lookup of an object field, as `doc["k"]` would. -/
def getJsonField (fs : List (String × Json)) (k : String) : Option Json :=
  (fs.find? (fun f => f.1 == k)).map (fun f => f.2)

/-- Whether a JSON value is an object all of whose values are nonnegative
integer counts. -/
def isCountJson : Json → Bool
  | .obj fs => fs.all (fun f => match f.2 with
      | .num q => decide (q.den = 1 ∧ 0 ≤ q)
      | _ => false)
  | _ => false

/-- Modelled from the spec: validity of a persisted document as a
`StyleProfile` (§3 data model — the code itself contains no such check).
The document must be an object carrying `totalMessages` (a nonnegative
integer), the five counter maps, `averageLength ≥ 0`, `politenessScore` in
`[-1, 1]`, and a `lastUpdated` that is a string or null. -/
def specValidProfileJson : Json → Bool
  | .obj fs =>
      (match getJsonField fs "totalMessages" with
        | some (.num q) => decide (q.den = 1 ∧ 0 ≤ q)
        | _ => false)
      && (match getJsonField fs "wordFrequency" with
        | some j => isCountJson j
        | _ => false)
      && (match getJsonField fs "sentenceEnders" with
        | some j => isCountJson j
        | _ => false)
      && (match getJsonField fs "fillerWords" with
        | some j => isCountJson j
        | _ => false)
      && (match getJsonField fs "firstPerson" with
        | some j => isCountJson j
        | _ => false)
      && (match getJsonField fs "commonPhrases" with
        | some j => isCountJson j
        | _ => false)
      && (match getJsonField fs "averageLength" with
        | some (.num q) => decide (0 ≤ q)
        | _ => false)
      && (match getJsonField fs "politenessScore" with
        | some (.num q) => decide (-1 ≤ q ∧ q ≤ 1)
        | _ => false)
      && (match getJsonField fs "lastUpdated" with
        | some .null => true
        | some (.str _) => true
        | _ => false)
  | _ => false

/-! ## Field-level description of one analyzer step -/

@[simp]
theorem analyzeMessage_totalMessages (text : Str) (now : String) (p : StyleProfile) :
    (analyzeMessage text now p).totalMessages = p.totalMessages + 1 := rfl

@[simp]
theorem analyzeMessage_wordFrequency (text : Str) (now : String) (p : StyleProfile) :
    (analyzeMessage text now p).wordFrequency = bumpWords (tokenize text) p.wordFrequency := rfl

@[simp]
theorem analyzeMessage_sentenceEnders (text : Str) (now : String) (p : StyleProfile) :
    (analyzeMessage text now p).sentenceEnders =
      detect JAPANESE_SENTENCE_ENDERS text p.sentenceEnders := rfl

@[simp]
theorem analyzeMessage_fillerWords (text : Str) (now : String) (p : StyleProfile) :
    (analyzeMessage text now p).fillerWords = detect FILLER_WORDS text p.fillerWords := rfl

@[simp]
theorem analyzeMessage_firstPerson (text : Str) (now : String) (p : StyleProfile) :
    (analyzeMessage text now p).firstPerson =
      detect FIRST_PERSON_PRONOUNS text p.firstPerson := rfl

@[simp]
theorem analyzeMessage_commonPhrases (text : Str) (now : String) (p : StyleProfile) :
    (analyzeMessage text now p).commonPhrases =
      prunePhrases (minePhrases text p.commonPhrases) := rfl

@[simp]
theorem analyzeMessage_topicKeywords (text : Str) (now : String) (p : StyleProfile) :
    (analyzeMessage text now p).topicKeywords = p.topicKeywords := rfl

@[simp]
theorem analyzeMessage_responsePatterns (text : Str) (now : String) (p : StyleProfile) :
    (analyzeMessage text now p).responsePatterns = p.responsePatterns := rfl

@[simp]
theorem analyzeMessage_lastUpdated (text : Str) (now : String) (p : StyleProfile) :
    (analyzeMessage text now p).lastUpdated = some now := rfl

@[simp]
theorem analyzeMessage_averageLength (text : Str) (now : String) (p : StyleProfile) :
    (analyzeMessage text now p).averageLength =
      (p.averageLength * (p.totalMessages : ℚ) + (text.length : ℚ))
        / ((p.totalMessages : ℚ) + 1) := by
  show (p.averageLength * ((p.totalMessages + 1 - 1 : ℕ) : ℚ) + (text.length : ℚ))
      / ((p.totalMessages + 1 : ℕ) : ℚ) = _
  push_cast
  ring_nf

@[simp]
theorem analyzeMessage_politenessScore (text : Str) (now : String) (p : StyleProfile) :
    (analyzeMessage text now p).politenessScore =
      if 0 < formalMatches text + casualMatches text then
        (3 / 10 : ℚ) *
            (((formalMatches text : ℚ) - (casualMatches text : ℚ))
              / ((formalMatches text : ℚ) + (casualMatches text : ℚ)))
          + (1 - 3 / 10) * p.politenessScore
      else p.politenessScore := rfl

/-! ## C1 : rebuild equivalence -/

theorem foldl_updateStore_some (msgs : List (Str × String)) (p : StyleProfile) :
    msgs.foldl (fun s m => updateStore s m.1 m.2) (some p) =
      some (msgs.foldl (fun q m => analyzeMessage m.1 m.2 q) p) := by
  induction msgs generalizing p with
  | nil => rfl
  | cons m ms ih => simpa [updateStore, loadStore] using ih (analyzeMessage m.1 m.2 p)

/-- Claim C1: rebuilding a profile (replaying the ordered message list onto
the canonical empty profile) yields exactly the profile obtained by starting
from an empty store and performing a sequential load-analyze-save update for
each message in the same order. -/
theorem rebuild_equivalence (msgs : List (Str × String)) :
    rebuildProfile msgs =
      loadStore (msgs.foldl (fun s m => updateStore s m.1 m.2) none) := by
  cases msgs with
  | nil => rfl
  | cons m ms =>
    show ms.foldl _ (analyzeMessage m.1 m.2 createEmptyProfile) = _
    rw [List.foldl_cons, show updateStore none m.1 m.2 =
      some (analyzeMessage m.1 m.2 createEmptyProfile) from rfl,
      foldl_updateStore_some, loadStore]
    rfl

/-! ## C2 : average-length exactness -/

theorem foldl_totalMessages (msgs : List (Str × String)) (p : StyleProfile) :
    (msgs.foldl (fun q m => analyzeMessage m.1 m.2 q) p).totalMessages =
      p.totalMessages + msgs.length := by
  induction msgs generalizing p with
  | nil => rfl
  | cons m ms ih =>
    rw [List.foldl_cons, ih]
    simp only [analyzeMessage_totalMessages, List.length_cons]
    omega

theorem foldl_averageLength_mul (msgs : List (Str × String)) (p : StyleProfile) :
    (msgs.foldl (fun q m => analyzeMessage m.1 m.2 q) p).averageLength *
        (((msgs.foldl (fun q m => analyzeMessage m.1 m.2 q) p).totalMessages : ℕ) : ℚ) =
      p.averageLength * ((p.totalMessages : ℕ) : ℚ) +
        (msgs.map (fun m => ((m.1.length : ℕ) : ℚ))).sum := by
  induction msgs generalizing p with
  | nil => simp
  | cons m ms ih =>
    rw [List.foldl_cons, ih (analyzeMessage m.1 m.2 p)]
    simp only [analyzeMessage_averageLength, analyzeMessage_totalMessages,
      List.map_cons, List.sum_cons]
    have hne : ((p.totalMessages : ℚ) + 1) ≠ 0 := by positivity
    push_cast
    field_simp
    ring

/-- Claim C2: after replaying any nonempty ordered message list onto the
empty profile, `totalMessages` is the number of messages and `averageLength`
is exactly the arithmetic mean of the character lengths of the messages
(exact in `ℚ`, hence within any floating-point tolerance). -/
theorem averageLength_is_mean (msgs : List (Str × String)) :
    (rebuildProfile msgs).totalMessages = msgs.length ∧
      (msgs ≠ [] →
        (rebuildProfile msgs).averageLength =
          (msgs.map (fun m => ((m.1.length : ℕ) : ℚ))).sum / ((msgs.length : ℕ) : ℚ)) := by
  have htot : (rebuildProfile msgs).totalMessages = msgs.length := by
    have := foldl_totalMessages msgs createEmptyProfile
    simpa [rebuildProfile, createEmptyProfile] using this
  refine ⟨htot, fun hne => ?_⟩
  have hmul := foldl_averageLength_mul msgs createEmptyProfile
  rw [show (msgs.foldl (fun q m => analyzeMessage m.1 m.2 q) createEmptyProfile) =
    rebuildProfile msgs from rfl, htot] at hmul
  have hlen : ((msgs.length : ℕ) : ℚ) ≠ 0 := by
    exact_mod_cast Nat.cast_ne_zero.mpr (fun h0 => hne (List.length_eq_zero.mp h0))
  have : (rebuildProfile msgs).averageLength * ((msgs.length : ℕ) : ℚ) =
      (msgs.map (fun m => ((m.1.length : ℕ) : ℚ))).sum := by
    simpa [createEmptyProfile] using hmul
  field_simp [hlen] at this ⊢
  linarith [this]

/-- Witness for C2 at the concrete list `["ab", "abcd"]` (lengths 2 and 4):
two messages, average exactly 3. -/
theorem averageLength_is_mean_witness :
    (rebuildProfile [("ab".data, "t1"), ("abcd".data, "t2")]).totalMessages = 2 ∧
      (rebuildProfile [("ab".data, "t1"), ("abcd".data, "t2")]).averageLength = 3 := by
  have h := averageLength_is_mean [("ab".data, "t1"), ("abcd".data, "t2")]
  have hne : ([("ab".data, "t1"), ("abcd".data, "t2")] : List (Str × String)) ≠ [] := by
    simp
  refine ⟨h.1, ?_⟩
  rw [h.2 hne]
  have h2 : ("ab".data : Str).length = 2 := by decide
  have h4 : ("abcd".data : Str).length = 4 := by decide
  simp [h2, h4]
  norm_num

/-! ## C4 : politeness stability when no marker occurs -/

theorem countP_strIncludes_zero {pats : List Str} {text : Str}
    (h : ∀ m ∈ pats, strIncludes text m = false) :
    pats.countP (fun m => strIncludes text m) = 0 :=
  List.countP_eq_zero.mpr (fun a ha => by simp [h a ha])

/-- Claim C4: a message containing no formal marker and no casual marker (as
substrings) leaves `politenessScore` exactly unchanged — the score is not
decayed toward 0. -/
theorem politeness_stability (text : Str) (now : String) (p : StyleProfile)
    (hf : ∀ m ∈ POLITENESS_FORMAL, strIncludes text m = false)
    (hc : ∀ m ∈ POLITENESS_CASUAL, strIncludes text m = false) :
    (analyzeMessage text now p).politenessScore = p.politenessScore := by
  have hf0 : formalMatches text = 0 := countP_strIncludes_zero hf
  have hc0 : casualMatches text = 0 := countP_strIncludes_zero hc
  simp [analyzeMessage_politenessScore, hf0, hc0]

/-- Witness for C4: the marker-free message `"こんにちは"` leaves the score of
a profile with score 1/2 unchanged. -/
theorem politeness_stability_witness :
    (analyzeMessage "こんにちは".data "t"
      { createEmptyProfile with politenessScore := 1 / 2 }).politenessScore = 1 / 2 := by
  have hf : ∀ m ∈ POLITENESS_FORMAL, strIncludes "こんにちは".data m = false := by decide
  have hc : ∀ m ∈ POLITENESS_CASUAL, strIncludes "こんにちは".data m = false := by decide
  rw [politeness_stability "こんにちは".data "t" _ hf hc]

/-! ## C5 : the politeness EMA update -/

/-- Claim C5: whenever at least one formal or casual marker occurs in the
message (each marker counted once per message), the analyzer replaces
`politenessScore` by `0.3 * messageScore + 0.7 * old` with
`messageScore = (formalCount - casualCount) / (formalCount + casualCount)`. -/
theorem politeness_ema_update (text : Str) (now : String) (p : StyleProfile)
    (h : 0 < formalMatches text + casualMatches text) :
    (analyzeMessage text now p).politenessScore =
      (3 / 10 : ℚ) *
          (((formalMatches text : ℚ) - (casualMatches text : ℚ))
            / ((formalMatches text : ℚ) + (casualMatches text : ℚ)))
        + (1 - 3 / 10) * p.politenessScore := by
  simp [analyzeMessage_politenessScore, h]

/-- Witness for C5, the spec's boundary scenario: `"ですます"` matches exactly
the two formal markers `です`, `ます` and no casual marker, so from score 0
the new score is exactly 0.3 — and the summary label is still `"普通"`
(neutral), because the formal label needs a score strictly above 0.3. -/
theorem politeness_ema_update_witness :
    formalMatches "ですます".data = 2 ∧ casualMatches "ですます".data = 0 ∧
      (analyzeMessage "ですます".data "t" createEmptyProfile).politenessScore = 3 / 10 ∧
      (getProfileSummary
        (analyzeMessage "ですます".data "t" createEmptyProfile)).politenessLabel = "普通" := by
  have hf : formalMatches "ですます".data = 2 := by decide
  have hc : casualMatches "ですます".data = 0 := by decide
  have h0 : 0 < formalMatches "ですます".data + casualMatches "ですます".data := by
    rw [hf, hc]; norm_num
  have hs := politeness_ema_update "ですます".data "t" createEmptyProfile h0
  rw [hf, hc] at hs
  have hscore : (analyzeMessage "ですます".data "t" createEmptyProfile).politenessScore
      = 3 / 10 := by
    rw [hs]
    norm_num [createEmptyProfile]
  refine ⟨hf, hc, hscore, ?_⟩
  simp only [getProfileSummary, hscore]
  norm_num

/-! ## C6 : the politeness score stays in [-1, 1] -/

theorem politeness_step_bounds (text : Str) (now : String) (p : StyleProfile)
    (hlo : -1 ≤ p.politenessScore) (hhi : p.politenessScore ≤ 1) :
    -1 ≤ (analyzeMessage text now p).politenessScore ∧
      (analyzeMessage text now p).politenessScore ≤ 1 := by
  rw [analyzeMessage_politenessScore]
  by_cases h : 0 < formalMatches text + casualMatches text
  · rw [if_pos h]
    set f : ℚ := (formalMatches text : ℚ) with hfdef
    set c : ℚ := (casualMatches text : ℚ) with hcdef
    have hf0 : 0 ≤ f := by positivity
    have hc0 : 0 ≤ c := by positivity
    have hfc : 0 < f + c := by
      have : (0 : ℚ) < ((formalMatches text + casualMatches text : ℕ) : ℚ) := by
        exact_mod_cast h
      push_cast at this
      linarith
    have hm1 : (f - c) / (f + c) ≤ 1 := by
      rw [div_le_one hfc]; linarith
    have hm2 : -1 ≤ (f - c) / (f + c) := by
      rw [le_div_iff₀ hfc]; linarith
    constructor <;> nlinarith [hm1, hm2, hlo, hhi]
  · rw [if_neg h]
    exact ⟨hlo, hhi⟩

theorem foldl_politeness_bounds (msgs : List (Str × String)) (p : StyleProfile)
    (hlo : -1 ≤ p.politenessScore) (hhi : p.politenessScore ≤ 1) :
    -1 ≤ (msgs.foldl (fun q m => analyzeMessage m.1 m.2 q) p).politenessScore ∧
      (msgs.foldl (fun q m => analyzeMessage m.1 m.2 q) p).politenessScore ≤ 1 := by
  induction msgs generalizing p with
  | nil => exact ⟨hlo, hhi⟩
  | cons m ms ih =>
    rw [List.foldl_cons]
    obtain ⟨h1, h2⟩ := politeness_step_bounds m.1 m.2 p hlo hhi
    exact ih (analyzeMessage m.1 m.2 p) h1 h2

/-- Claim C6: starting from the empty profile (score 0), after any sequence
of analyzer updates with arbitrary message texts, `politenessScore` stays in
the closed interval [-1, 1]. -/
theorem politenessScore_range (msgs : List (Str × String)) :
    -1 ≤ (rebuildProfile msgs).politenessScore ∧
      (rebuildProfile msgs).politenessScore ≤ 1 := by
  have h0lo : -1 ≤ createEmptyProfile.politenessScore := by norm_num [createEmptyProfile]
  have h0hi : createEmptyProfile.politenessScore ≤ 1 := by norm_num [createEmptyProfile]
  exact foldl_politeness_bounds msgs createEmptyProfile h0lo h0hi

/-! ## C3 : the phrase-pruning bound -/

theorem prunePhrases_length_le (m : CountMap) : (prunePhrases m).length ≤ 5000 := by
  unfold prunePhrases
  split
  · have h := List.length_take 2000 (sortByCountDesc m)
    omega
  · omega

theorem sortByCountDesc_sorted (m : CountMap) :
    List.Sorted countGE (sortByCountDesc m) :=
  List.sorted_insertionSort countGE m

theorem mem_of_mem_sortByCountDesc {m : CountMap} {e : Str × Nat}
    (h : e ∈ sortByCountDesc m) : e ∈ m :=
  (List.perm_insertionSort countGE m).mem_iff.mp h

/-- Claim C3: after any single analyzer update the number of entries of
`commonPhrases` is at most 5000; whenever the mined map exceeds 5000
entries, it is replaced by exactly the first 2000 entries of its stable
sort by count descending — a list that is sorted by count descending, draws
all its entries from the mined map, and (stability) keeps any two equal-count
entries in their original insertion order. -/
theorem commonPhrases_pruning_bound (p : StyleProfile) (text : Str) (now : String) :
    (analyzeMessage text now p).commonPhrases.length ≤ 5000 ∧
      (analyzeMessage text now p).commonPhrases =
        (if 5000 < (minePhrases text p.commonPhrases).length
          then (sortByCountDesc (minePhrases text p.commonPhrases)).take 2000
          else minePhrases text p.commonPhrases) ∧
      List.Sorted countGE ((sortByCountDesc (minePhrases text p.commonPhrases)).take 2000) ∧
      (∀ e ∈ (sortByCountDesc (minePhrases text p.commonPhrases)).take 2000,
        e ∈ minePhrases text p.commonPhrases) ∧
      (∀ a b : Str × Nat, a.2 = b.2 →
        List.Sublist [a, b] (minePhrases text p.commonPhrases) →
        List.Sublist [a, b] (sortByCountDesc (minePhrases text p.commonPhrases))) := by
  refine ⟨?_, rfl, ?_, ?_, ?_⟩
  · rw [analyzeMessage_commonPhrases]
    exact prunePhrases_length_le _
  · exact (sortByCountDesc_sorted _).sublist (List.take_sublist _ _)
  · intro e he
    exact mem_of_mem_sortByCountDesc (List.mem_of_mem_take he)
  · intro a b hab hsub
    exact List.pair_sublist_insertionSort (le_of_eq hab.symm) hsub

/-- Witness for C3 on the message `"あいうえお"` over the empty profile: the
mined map has 6 entries (well under the 5000 bound) and the stable sort keeps
the tied entries `あいう`, `いうえ` in insertion order. -/
theorem commonPhrases_pruning_bound_witness :
    (analyzeMessage "あいうえお".data "t" createEmptyProfile).commonPhrases.length ≤ 5000 ∧
      (("あいう".data, 1) ∈ minePhrases "あいうえお".data createEmptyProfile.commonPhrases) ∧
      List.Sublist [("あいう".data, 1), ("いうえ".data, 1)]
        (sortByCountDesc (minePhrases "あいうえお".data createEmptyProfile.commonPhrases)) := by
  have h := commonPhrases_pruning_bound createEmptyProfile "あいうえお".data "t"
  refine ⟨h.1, ?_, ?_⟩
  · exact h.2.2.2.1 ("あいう".data, 1) (by decide)
  · exact h.2.2.2.2 ("あいう".data, 1) ("いうえ".data, 1) (by decide) (by decide)

/-! ## C8 : totality and the empty-string message -/

theorem detect_no_match {pats : List Str} {text : Str} {m : CountMap}
    (h : ∀ pat ∈ pats, strIncludes text pat = false) :
    detect pats text m = m := by
  induction pats generalizing m with
  | nil => rfl
  | cons q qs ih =>
    have hq : strIncludes text q = false := h q (by simp)
    show List.foldl _ (if strIncludes text q then bump m q else m) qs = m
    rw [hq]
    simp only [Bool.false_eq_true, if_false]
    exact ih (fun pat hp => h pat (by simp [hp]))

/-- Claim C8: the analyzer is a total function of its string input, and on
the empty message (for any profile whose phrase map respects the pruning
bound, as every analyzer-produced profile does) it only increments
`totalMessages`, recomputes `averageLength` with length 0, and stamps
`lastUpdated` — `wordFrequency`, `sentenceEnders`, `fillerWords`,
`firstPerson`, `politenessScore` and `commonPhrases` are all unchanged. -/
theorem analyzeMessage_empty_message (p : StyleProfile) (now : String)
    (h : p.commonPhrases.length ≤ 5000) :
    analyzeMessage [] now p =
      { p with
        totalMessages := p.totalMessages + 1
        averageLength := p.averageLength * (p.totalMessages : ℚ) / ((p.totalMessages : ℚ) + 1)
        lastUpdated := some now } := by
  have hse : detect JAPANESE_SENTENCE_ENDERS [] p.sentenceEnders = p.sentenceEnders :=
    detect_no_match (by decide)
  have hfw : detect FILLER_WORDS [] p.fillerWords = p.fillerWords :=
    detect_no_match (by decide)
  have hfp : detect FIRST_PERSON_PRONOUNS [] p.firstPerson = p.firstPerson :=
    detect_no_match (by decide)
  have hf0 : formalMatches ([] : Str) = 0 := by decide
  have hc0 : casualMatches ([] : Str) = 0 := by decide
  have hmine : minePhrases [] p.commonPhrases = p.commonPhrases := rfl
  have hprune : prunePhrases p.commonPhrases = p.commonPhrases := by
    unfold prunePhrases
    rw [if_neg (by omega)]
  have hwf : bumpWords (tokenize ([] : Str)) p.wordFrequency = p.wordFrequency := rfl
  have havg : (p.averageLength * ((p.totalMessages + 1 - 1 : ℕ) : ℚ)
      + (([] : Str).length : ℚ)) / ((p.totalMessages + 1 : ℕ) : ℚ) =
      p.averageLength * (p.totalMessages : ℚ) / ((p.totalMessages : ℚ) + 1) := by
    simp only [List.length_nil, Nat.cast_zero, add_zero]
    push_cast
    ring
  have hpol : (if 0 < formalMatches ([] : Str) + casualMatches ([] : Str) then
      (3 / 10 : ℚ) * (((formalMatches ([] : Str) : ℚ) - (casualMatches ([] : Str) : ℚ))
        / ((formalMatches ([] : Str) : ℚ) + (casualMatches ([] : Str) : ℚ)))
        + (1 - 3 / 10) * p.politenessScore
    else p.politenessScore) = p.politenessScore := by
    rw [hf0, hc0]
    norm_num
  show ({ p with
      totalMessages := p.totalMessages + 1
      averageLength := (p.averageLength * ((p.totalMessages + 1 - 1 : ℕ) : ℚ)
        + (([] : Str).length : ℚ)) / ((p.totalMessages + 1 : ℕ) : ℚ)
      wordFrequency := bumpWords (tokenize []) p.wordFrequency
      sentenceEnders := detect JAPANESE_SENTENCE_ENDERS [] p.sentenceEnders
      fillerWords := detect FILLER_WORDS [] p.fillerWords
      firstPerson := detect FIRST_PERSON_PRONOUNS [] p.firstPerson
      politenessScore :=
        if 0 < formalMatches ([] : Str) + casualMatches ([] : Str) then
          (3 / 10 : ℚ) * (((formalMatches ([] : Str) : ℚ) - (casualMatches ([] : Str) : ℚ))
            / ((formalMatches ([] : Str) : ℚ) + (casualMatches ([] : Str) : ℚ)))
            + (1 - 3 / 10) * p.politenessScore
        else p.politenessScore
      commonPhrases := prunePhrases (minePhrases [] p.commonPhrases)
      lastUpdated := some now } : StyleProfile) = _
  rw [hse, hfw, hfp, hmine, hprune, hwf, havg, hpol]

/-- Witness for C8: the empty message on the empty profile only sets
`totalMessages := 1` and the timestamp. -/
theorem analyzeMessage_empty_message_witness :
    analyzeMessage [] "t" createEmptyProfile =
      { createEmptyProfile with totalMessages := 1, lastUpdated := some "t" } := by
  have h := analyzeMessage_empty_message createEmptyProfile "t" (by decide)
  rw [h]
  show ({ createEmptyProfile with
      totalMessages := 1
      averageLength := 0 * ((0 : ℕ) : ℚ) / (((0 : ℕ) : ℚ) + 1)
      lastUpdated := some "t" } : StyleProfile) = _
  simp only [StyleProfile.mk.injEq, and_true, true_and]
  norm_num
  rfl

/-! ## C10 : every mined phrase key has length 3..8 -/

theorem foldl_preserve {α β : Type} (P : α → Prop) (f : α → β → α) (l : List β)
    (hstep : ∀ a b, b ∈ l → P a → P (f a b)) (a : α) (ha : P a) : P (l.foldl f a) := by
  induction l generalizing a with
  | nil => exact ha
  | cons x xs ih =>
    rw [List.foldl_cons]
    exact ih (fun a b hb => hstep a b (by simp [hb])) _ (hstep a x (by simp) ha)

theorem bump_fst {m : CountMap} {k : Str} :
    ∀ e ∈ bump m k, e.1 = k ∨ ∃ e' ∈ m, e.1 = e'.1 := by
  induction m with
  | nil =>
    intro e he
    simp only [bump, List.mem_singleton] at he
    subst he
    exact Or.inl rfl
  | cons a as ih =>
    intro e he
    by_cases hak : a.1 = k
    · simp only [bump, if_pos hak, List.mem_cons] at he
      rcases he with he | he
      · subst he
        exact Or.inl hak
      · exact Or.inr ⟨e, by simp [he], rfl⟩
    · simp only [bump, if_neg hak, List.mem_cons] at he
      rcases he with he | he
      · exact Or.inr ⟨a, by simp, by rw [he]⟩
      · rcases ih e he with h | ⟨e', he', heq⟩
        · exact Or.inl h
        · exact Or.inr ⟨e', by simp [he'], heq⟩

theorem minePhrasesLen_key_length {text : Str} {len : Nat} {m : CountMap}
    (h3 : 3 ≤ len) (h8 : len ≤ 8)
    (hm : ∀ e ∈ m, 3 ≤ e.1.length ∧ e.1.length ≤ 8) :
    ∀ e ∈ minePhrasesLen text len m, 3 ≤ e.1.length ∧ e.1.length ≤ 8 := by
  unfold minePhrasesLen
  apply foldl_preserve (fun acc : CountMap => ∀ e ∈ acc, 3 ≤ e.1.length ∧ e.1.length ≤ 8)
  · intro acc i hi hacc
    have hib : i < text.length + 1 - len := List.mem_range.mp hi
    have hlen : (substringAt text i len).length = len := by
      unfold substringAt
      rw [List.length_take, List.length_drop]
      omega
    dsimp only
    split
    · exact hacc
    · intro e he
      rcases bump_fst e he with hk | ⟨e', he', heq⟩
      · rw [hk, hlen]
        exact ⟨h3, h8⟩
      · rw [heq]
        exact hacc e' he'
  · exact hm

theorem minePhrases_key_length {text : Str} {m : CountMap}
    (hm : ∀ e ∈ m, 3 ≤ e.1.length ∧ e.1.length ≤ 8) :
    ∀ e ∈ minePhrases text m, 3 ≤ e.1.length ∧ e.1.length ≤ 8 := by
  unfold minePhrases
  apply foldl_preserve (fun acc : CountMap => ∀ e ∈ acc, 3 ≤ e.1.length ∧ e.1.length ≤ 8)
  · intro acc len hlen hacc
    obtain ⟨i, hi, hieq⟩ := List.mem_range'.mp hlen
    have hmin8 : min 8 text.length ≤ 8 := Nat.min_le_left _ _
    have h3 : 3 ≤ len := by omega
    have h8 : len ≤ 8 := by omega
    exact minePhrasesLen_key_length h3 h8 hacc
  · exact hm

theorem prunePhrases_subset (m : CountMap) : ∀ e ∈ prunePhrases m, e ∈ m := by
  unfold prunePhrases
  split
  · intro e he
    exact mem_of_mem_sortByCountDesc (List.mem_of_mem_take he)
  · intro e he
    exact he

theorem getTopItems_subset (m : CountMap) (n : Nat) :
    ∀ e ∈ getTopItems m n, e ∈ m := by
  intro e he
  exact mem_of_mem_sortByCountDesc (List.mem_of_mem_take he)

/-- Claim C10: starting from the empty profile, after any sequence of
analyzer updates every key of `commonPhrases` has character length between
3 and 8 inclusive; consequently the `length ≥ 3` clause of the summary's
`topPhrases` filter never removes an entry — the filter degenerates to the
`count ≥ 2` clause alone. -/
theorem commonPhrases_key_length_invariant (msgs : List (Str × String)) :
    (∀ e ∈ (rebuildProfile msgs).commonPhrases, 3 ≤ e.1.length ∧ e.1.length ≤ 8) ∧
      (getProfileSummary (rebuildProfile msgs)).topPhrases =
        (getTopItems (rebuildProfile msgs).commonPhrases 15).filter
          (fun e => decide (2 ≤ e.2)) := by
  have hkeys : ∀ e ∈ (rebuildProfile msgs).commonPhrases,
      3 ≤ e.1.length ∧ e.1.length ≤ 8 := by
    unfold rebuildProfile
    apply foldl_preserve
      (fun q : StyleProfile => ∀ e ∈ q.commonPhrases, 3 ≤ e.1.length ∧ e.1.length ≤ 8)
    · intro q m _ hq
      rw [analyzeMessage_commonPhrases]
      intro e he
      exact minePhrases_key_length hq e (prunePhrases_subset _ e he)
    · intro e he
      simp [createEmptyProfile] at he
  refine ⟨hkeys, ?_⟩
  show (getTopItems (rebuildProfile msgs).commonPhrases 15).filter
      (fun e => decide (2 ≤ e.2) && decide (3 ≤ e.1.length)) = _
  apply List.filter_congr
  intro e he
  have hmem : e ∈ (rebuildProfile msgs).commonPhrases := getTopItems_subset _ _ e he
  rw [decide_eq_true (hkeys e hmem).1, Bool.and_true]

/-- Witness for C10: the single message `"あいうえお"` puts the key `あいう`
(length 3) into `commonPhrases`. -/
theorem commonPhrases_key_length_invariant_witness :
    (("あいう".data, 1) ∈ (rebuildProfile [("あいうえお".data, "t")]).commonPhrases) ∧
      3 ≤ ("あいう".data : Str).length ∧ ("あいう".data : Str).length ≤ 8 := by
  have h := commonPhrases_key_length_invariant [("あいうえお".data, "t")]
  have hmem : ("あいう".data, 1) ∈ (rebuildProfile [("あいうえお".data, "t")]).commonPhrases := by
    decide
  exact ⟨hmem, (h.1 _ hmem).1, (h.1 _ hmem).2⟩

/-! ## C9 : the summary truncates to top 15 before filtering -/

/-- A phrase map as `loadProfile` can deliver it (the load path performs no
validation): one high-count key of length 2 and sixteen tied keys of
length 3 with count 2. -/
def demoPhrases : CountMap :=
  ("ab".data, 100) ::
    (["aaa", "aab", "aac", "aad", "aae", "aaf", "aag", "aah",
      "aai", "aaj", "aak", "aal", "aam", "aan", "aao", "aap"].map
        (fun s => (s.data, 2)))

/-- A profile carrying `demoPhrases`. -/
def demoProfile : StyleProfile :=
  { createEmptyProfile with commonPhrases := demoPhrases }

/-- Claim C9: for every profile, the summary's `topPhrases` is the top-15
truncation of `commonPhrases` (by count descending) filtered afterwards by
`count ≥ 2 ∧ length ≥ 3`; because the filter runs after the truncation, a
profile can have more than 15 entries satisfying the filter while
`topPhrases` holds fewer than 15 (16 vs 14 on `demoProfile`, where
filtering before truncating would have yielded a full 15). -/
theorem topPhrases_truncate_before_filter :
    (∀ p : StyleProfile,
      (getProfileSummary p).topPhrases =
        (getTopItems p.commonPhrases 15).filter
          (fun e => decide (2 ≤ e.2) && decide (3 ≤ e.1.length))) ∧
      (demoProfile.commonPhrases.filter
        (fun e => decide (2 ≤ e.2) && decide (3 ≤ e.1.length))).length = 16 ∧
      (getProfileSummary demoProfile).topPhrases.length = 14 ∧
      (getTopItems
        (demoProfile.commonPhrases.filter
          (fun e => decide (2 ≤ e.2) && decide (3 ≤ e.1.length))) 15).length = 15 := by
  refine ⟨fun p => rfl, ?_, ?_, ?_⟩
  · decide
  · decide
  · decide

/-! ## C7 : the load path raises no corrupt-profile error -/

/-- Amended C7: `load` returns a freshly initialized empty profile when no
document exists (it never fails on a missing key); when a document exists,
the only failure it can raise is the JSON parser's `SyntaxError` on
malformed text — a document that parses as JSON but is not a valid
`StyleProfile` is returned as-is, with no validation and no
`CorruptProfileError`. -/
theorem loadProfile_contract_amended :
    loadProfileJson none = .ok (profileToJson createEmptyProfile) ∧
      loadProfileJson (some .malformed) = .error .syntaxError ∧
      (∀ j : Json, loadProfileJson (some (.parsed j)) = .ok j) ∧
      (∀ file : Option PersistedDoc,
        (∃ e, loadProfileJson file = .error e) ↔ file = some .malformed) := by
  refine ⟨rfl, rfl, fun j => rfl, fun file => ?_⟩
  constructor
  · rintro ⟨e, he⟩
    match file with
    | none => exact absurd he (by simp [loadProfileJson])
    | some .malformed => rfl
    | some (.parsed j) => exact absurd he (by simp [loadProfileJson, jsonParse])
  · rintro rfl
    exact ⟨.syntaxError, rfl⟩

/-- Counterexample to C7 as stated: the persisted document `42` is valid
JSON but not a valid `StyleProfile`, yet `load` succeeds and returns it
unchanged instead of raising an error. -/
theorem loadProfile_corrupt_counterexample :
    loadProfileJson (some (.parsed (.num 42))) = .ok (.num 42) ∧
      specValidProfileJson (.num 42) = false :=
  ⟨rfl, rfl⟩

end Learning
